import Mathlib

/-!
Verification of the thermal-cat capture pipeline.

Shallow embedding of the source files under src/:
  - temperature_unit.rs   (TemperatureUnit and its Kelvin conversions)
  - thermal_capturer.rs   (the capture orchestrator: settings, commands,
    the per-frame capture step and the worker loop with its one-item
    non-blocking command drain)

Machine floats of the source are modelled with exact rationals; real-time
quantities (fps fields) are outside the embedding.  Collaborator types whose
sources are not under src/ (TempRange, ThermalData, the histogram builder,
the gradient, the auto-range controller) are modelled from the spec and say
so in their doc comments.
-/

/-- TemperatureUnit from temperature_unit.rs: enumerated Kelvin, Celsius,
Fahrenheit. -/
inductive TemperatureUnit where
  | Kelvin
  | Celsius
  | Fahrenheit
  deriving DecidableEq

/-- Default unit is Kelvin (impl Default for TemperatureUnit). -/
def TemperatureUnit.default : TemperatureUnit := TemperatureUnit.Kelvin

/-- Display suffix (TemperatureUnit::suffix). -/
def TemperatureUnit.suffix : TemperatureUnit → String
  | TemperatureUnit.Kelvin => "K"
  | TemperatureUnit.Celsius => "°C"
  | TemperatureUnit.Fahrenheit => "°F"

/-- TemperatureUnit::from_kelvin, with f32 modelled as exact rationals. -/
def TemperatureUnit.from_kelvin : TemperatureUnit → ℚ → ℚ
  | TemperatureUnit.Kelvin, kelvin => kelvin
  | TemperatureUnit.Celsius, kelvin => kelvin - 273.15
  | TemperatureUnit.Fahrenheit, kelvin => (kelvin - 273.15) * 1.8 + 32.0

/-- TemperatureUnit::to_kelvin, with f32 modelled as exact rationals. -/
def TemperatureUnit.to_kelvin : TemperatureUnit → ℚ → ℚ
  | TemperatureUnit.Kelvin, value => value
  | TemperatureUnit.Celsius, value => value + 273.15
  | TemperatureUnit.Fahrenheit, value => (value - 32.0) / 1.8 + 273.15

/-- Modelled from the spec: TempRange (temperature.rs is not under src/).
An ordered pair of temperatures, stored in Kelvin; TempRange::new stores its
two arguments as the low and high bound. -/
structure TempRange where
  min : ℚ
  max : ℚ
  deriving DecidableEq

/-- Modelled from the spec: TempRange::new. -/
def TempRange.new (lo hi : ℚ) : TempRange := ⟨lo, hi⟩

/-- Modelled from the spec: join(a, b) is the smallest range containing
both, i.e. the componentwise min of the lows and max of the highs. -/
def TempRange.join (a b : TempRange) : TempRange :=
  ⟨Min.min a.min b.min, Max.max a.max b.max⟩

/-- Modelled from the spec: factor(t) normalizes t into the range. -/
def TempRange.factor (r : TempRange) (t : ℚ) : ℚ :=
  (t - r.min) / (r.max - r.min)

/-- A range contains a temperature when it lies between the bounds. -/
def TempRange.contains (r : TempRange) (t : ℚ) : Prop :=
  r.min ≤ t ∧ t ≤ r.max

instance (r : TempRange) (t : ℚ) : Decidable (r.contains t) := by
  unfold TempRange.contains; infer_instance

/-- Modelled from the spec: ThermalData (thermal_data.rs is not under src/),
one decoded grid of per-pixel calibrated temperatures; the grid always has
at least one pixel, represented here as a head pixel plus the rest. -/
structure ThermalData where
  firstPixel : ℚ
  restPixels : List ℚ

/-- All pixel temperatures of the frame. -/
def ThermalData.pixels (d : ThermalData) : List ℚ :=
  d.firstPixel :: d.restPixels

/-- Modelled from the spec: the minimum temperature of the frame, as found
through get_min_max_pos and temperature_at. -/
def ThermalData.minTemp (d : ThermalData) : ℚ :=
  d.restPixels.foldl Min.min d.firstPixel

/-- Modelled from the spec: the maximum temperature of the frame. -/
def ThermalData.maxTemp (d : ThermalData) : ℚ :=
  d.restPixels.foldl Max.max d.firstPixel

/-- The captured range of a frame, as formed in the capture loop:
TempRange::new(min temperature, max temperature). -/
def ThermalData.capturedRange (d : ThermalData) : TempRange :=
  TempRange.new d.minTemp d.maxTemp

lemma foldl_min_le_init (l : List ℚ) (a : ℚ) : l.foldl Min.min a ≤ a := by
  induction l generalizing a with
  | nil => exact le_refl a
  | cons x xs ih => exact le_trans (ih (Min.min a x)) (min_le_left a x)

lemma foldl_min_le_mem (l : List ℚ) (a x : ℚ) (hx : x ∈ l) :
    l.foldl Min.min a ≤ x := by
  induction l generalizing a with
  | nil => cases hx
  | cons y ys ih =>
    rcases List.mem_cons.mp hx with h | h
    · subst h
      exact le_trans (foldl_min_le_init ys (Min.min a x)) (min_le_right a x)
    · exact ih (Min.min a y) h

lemma init_le_foldl_max (l : List ℚ) (a : ℚ) : a ≤ l.foldl Max.max a := by
  induction l generalizing a with
  | nil => exact le_refl a
  | cons x xs ih => exact le_trans (le_max_left a x) (ih (Max.max a x))

lemma mem_le_foldl_max (l : List ℚ) (a x : ℚ) (hx : x ∈ l) :
    x ≤ l.foldl Max.max a := by
  induction l generalizing a with
  | nil => cases hx
  | cons y ys ih =>
    rcases List.mem_cons.mp hx with h | h
    · subst h
      exact le_trans (le_max_right a x) (init_le_foldl_max ys (Max.max a x))
    · exact ih (Max.max a y) h

lemma minTemp_le_pixel (d : ThermalData) (t : ℚ) (ht : t ∈ d.pixels) :
    d.minTemp ≤ t := by
  rcases List.mem_cons.mp ht with h | h
  · rw [h]; exact foldl_min_le_init d.restPixels d.firstPixel
  · exact foldl_min_le_mem d.restPixels d.firstPixel t h

lemma pixel_le_maxTemp (d : ThermalData) (t : ℚ) (ht : t ∈ d.pixels) :
    t ≤ d.maxTemp := by
  rcases List.mem_cons.mp ht with h | h
  · rw [h]; exact init_le_foldl_max d.restPixels d.firstPixel
  · exact mem_le_foldl_max d.restPixels d.firstPixel t h

/-- Modelled from the spec: ThermalGradient (thermal_gradient.rs is not
under src/), a function from a normalized position to a display color;
colors are abstracted as natural numbers. -/
structure ThermalGradient where
  get_color : ℚ → ℕ

/-- Modelled from the spec: bucket of a temperature inside a histogram
range: the bucket count of pixels whose normalized factor falls into each
of the fixed-count equal subdivisions, clamped to the last bucket. -/
def ThermalDataHistogram.bucketIndex (r : TempRange) (n : ℕ) (t : ℚ) : ℕ :=
  Min.min (n - 1) (Int.toNat ⌊r.factor t * n⌋)

/-- Modelled from the spec: ThermalDataHistogram (thermal_data.rs is not
under src/), a fixed-bucket-count distribution of the frame's temperatures
over a given range; it records the range and bucket count it was built
with, and bins every pixel into a bucket. -/
structure ThermalDataHistogram where
  range : TempRange
  num_buckets : ℕ
  counts : List ℕ

/-- Modelled from the spec: ThermalDataHistogram::from_thermal_data bins
the frame's per-pixel temperatures into num_buckets buckets over the given
range. -/
def ThermalDataHistogram.from_thermal_data (d : ThermalData) (r : TempRange)
    (n : ℕ) : ThermalDataHistogram :=
  ⟨r, n,
    (List.range n).map (fun i =>
      (d.pixels.filter
        (fun t => ThermalDataHistogram.bucketIndex r n t = i)).length)⟩

/-- ThermalCapturerSettings from thermal_capturer.rs. -/
structure ThermalCapturerSettings where
  auto_range : Bool
  manual_range : TempRange
  gradient : ThermalGradient

/-- ThermalCapturerResult from thermal_capturer.rs.  The two fps fields of
the source (real_fps, reported_fps) are wall-clock and hardware readings
and are outside the embedding. -/
structure ThermalCapturerResult where
  image : List ℕ
  image_range : TempRange
  histogram : ThermalDataHistogram

/-- ThermalCapturerCmd from thermal_capturer.rs. -/
inductive ThermalCapturerCmd where
  | SetSettings (settings : ThermalCapturerSettings)
  | Stop

/-- One iteration of the capture loop body of ThermalCapturer::start, for a
successfully captured frame, parameterized by the auto-range controller
behavior (its state type and its compute function, an external contract):
computes the captured range, calls compute unconditionally, overrides the
mapping range with manual_range when auto_range is false, renders the
image through the gradient and builds the histogram over
captured_range.join(mapping_range) with 100 buckets.  Returns the emitted
result together with the advanced controller state. -/
def captureStep {σ : Type} (compute : σ → TempRange → TempRange × σ)
    (settings : ThermalCapturerSettings) (st : σ) (d : ThermalData) :
    ThermalCapturerResult × σ :=
  let captured := d.capturedRange
  let out := compute st captured
  let mapping_range :=
    if settings.auto_range then out.1 else settings.manual_range
  let image :=
    d.pixels.map (fun t => settings.gradient.get_color (mapping_range.factor t))
  (⟨image, mapping_range,
    ThermalDataHistogram.from_thermal_data d (captured.join mapping_range) 100⟩,
   out.2)

/-- The capture loop of ThermalCapturer::start observed over a finite
window: frames is the stream of adapter outcomes (none = the adapter
errored on that iteration), cmds is the state of the command queue at the
start of the window (no further commands arrive during it).  Per the
source, each iteration captures a frame (an error aborts the loop with
nothing emitted for that iteration), emits one result, then performs the
non-blocking at-most-one-item drain of the command queue: Stop breaks the
loop, SetSettings replaces the settings wholesale.  Returns the list of
results emitted during the window. -/
def runLoop {σ : Type} (compute : σ → TempRange → TempRange × σ) :
    List (Option ThermalData) → ThermalCapturerSettings → σ →
    List ThermalCapturerCmd → List ThermalCapturerResult
  | [], _, _, _ => []
  | none :: _, _, _, _ => []
  | some d :: rest, s, st, q =>
    let step := captureStep compute s st d
    step.1 ::
      match q with
      | [] => runLoop compute rest s step.2 []
      | ThermalCapturerCmd.Stop :: _ => []
      | ThermalCapturerCmd.SetSettings s2 :: q2 =>
        runLoop compute rest s2 step.2 q2

/-- Modelled from the spec: AutoDisplayRangeController
(auto_display_range_controller.rs is not under src/).  Deterministic given
its call history; since the smoothing algorithm itself is the
collaborator's internal concern, the state is modelled as the history of
captured ranges received, and the output as a range determined by that
history. -/
def AutoDisplayRangeController.compute (hist : List TempRange)
    (r : TempRange) : TempRange × List TempRange :=
  ((hist.foldl TempRange.join r), hist ++ [r])

/-- Panic outcome of a Rust unwrap. -/
inductive RustPanic where
  | unwrapFailed
  deriving DecidableEq

/-- Model of the owner-side handle: ThermalCapturer keeps its context (the
camera handle, abstracted as a natural-number id) in an Option, taken out
by start. -/
structure ThermalCapturerHandle where
  ctx : Option ℕ

/-- ThermalCapturer::start, caller-side effect: mem::replace takes the
context out of the handle and unwraps it — a missing context panics; on
success, the context (with the camera) is handed to the newly spawned
worker and start returns at once, emitting no result on the caller's
thread. -/
def ThermalCapturer.start (h : ThermalCapturerHandle) :
    Except RustPanic (ThermalCapturerHandle × ℕ) :=
  match h.ctx with
  | none => Except.error RustPanic.unwrapFailed
  | some c => Except.ok (⟨none⟩, c)

/-- Model of mpsc::Sender::send on the command channel: appends to the
queue while the receiver (the worker) is alive, and fails once the
receiver has been dropped. -/
def mpscSend (receiverAlive : Bool) (q : List ThermalCapturerCmd)
    (c : ThermalCapturerCmd) : Option (List ThermalCapturerCmd) :=
  if receiverAlive then some (q ++ [c]) else none

/-- ThermalCapturer::set_settings: sends SetSettings and unwraps the send
result — panics when the worker's receiver end is gone. -/
def ThermalCapturer.set_settings (receiverAlive : Bool)
    (q : List ThermalCapturerCmd) (s : ThermalCapturerSettings) :
    Except RustPanic (List ThermalCapturerCmd) :=
  match mpscSend receiverAlive q (ThermalCapturerCmd.SetSettings s) with
  | some q2 => Except.ok q2
  | none => Except.error RustPanic.unwrapFailed

/-- Drop impl for ThermalCapturer: sends Stop and unwraps the send result
— panics when the worker's receiver end is gone. -/
def ThermalCapturer.dropCapturer (receiverAlive : Bool)
    (q : List ThermalCapturerCmd) :
    Except RustPanic (List ThermalCapturerCmd) :=
  match mpscSend receiverAlive q ThermalCapturerCmd.Stop with
  | some q2 => Except.ok q2
  | none => Except.error RustPanic.unwrapFailed

/-- Gradient used in concrete witnesses: constant color. -/
def witGradient : ThermalGradient := ⟨fun _ => 0⟩

/-- Concrete frame used in witnesses and counterexamples. -/
def witFrame : ThermalData := ⟨290, [285, 310]⟩

/-- Claim C5: for every Kelvin value k and every unit u, converting from
Kelvin and back is the identity (exact over the rational model, hence
within the 1e-4 tolerance), and from_kelvin and to_kelvin are mutual
inverses for every unit, in particular for the Celsius and Fahrenheit
affine conversions. -/
theorem temperature_unit_roundtrip (u : TemperatureUnit) (k : ℚ) :
    u.to_kelvin (u.from_kelvin k) = k ∧ u.from_kelvin (u.to_kelvin k) = k ∧
    |u.to_kelvin (u.from_kelvin k) - k| ≤ 1 / 10000 := by
  have h18 : (1.8 : ℚ) ≠ 0 := by norm_num
  have h1 : u.to_kelvin (u.from_kelvin k) = k := by
    cases u with
    | Kelvin => rfl
    | Celsius =>
      simp only [TemperatureUnit.from_kelvin, TemperatureUnit.to_kelvin]
      ring
    | Fahrenheit =>
      simp only [TemperatureUnit.from_kelvin, TemperatureUnit.to_kelvin]
      field_simp
  have h2 : u.from_kelvin (u.to_kelvin k) = k := by
    cases u with
    | Kelvin => rfl
    | Celsius =>
      simp only [TemperatureUnit.from_kelvin, TemperatureUnit.to_kelvin]
      ring
    | Fahrenheit =>
      simp only [TemperatureUnit.from_kelvin, TemperatureUnit.to_kelvin]
      field_simp
      ring
  exact ⟨h1, h2, by rw [h1]; simp⟩

/-- Claim C6: the fixed points of from_kelvin: 273.15 K is 0 °C and
32 °F, and 373.15 K is 212 °F. -/
theorem temperature_unit_fixed_points :
    TemperatureUnit.from_kelvin TemperatureUnit.Celsius 273.15 = 0 ∧
    TemperatureUnit.from_kelvin TemperatureUnit.Fahrenheit 273.15 = 32 ∧
    TemperatureUnit.from_kelvin TemperatureUnit.Fahrenheit 373.15 = 212 := by
  refine ⟨?_, ?_, ?_⟩ <;> norm_num [TemperatureUnit.from_kelvin]

/-- Claim C1: in every capture iteration run with auto_range = false, the
emitted result's image_range is exactly the settings' manual_range, for
every frame (hence every captured extreme) and every controller behavior
and state (hence regardless of the controller's output). -/
theorem capture_manual_mode_image_range {σ : Type}
    (compute : σ → TempRange → TempRange × σ)
    (settings : ThermalCapturerSettings) (st : σ) (d : ThermalData)
    (h : settings.auto_range = false) :
    (captureStep compute settings st d).1.image_range =
      settings.manual_range := by
  simp [captureStep, h]

/-- Witness for C1 at a concrete manual-mode configuration. -/
theorem capture_manual_mode_image_range_witness :
    (ThermalCapturerSettings.mk false (TempRange.new 280 300)
        witGradient).auto_range = false ∧
    (captureStep AutoDisplayRangeController.compute
        (ThermalCapturerSettings.mk false (TempRange.new 280 300) witGradient)
        [] witFrame).1.image_range = TempRange.new 280 300 :=
  ⟨rfl,
   capture_manual_mode_image_range AutoDisplayRangeController.compute
     (ThermalCapturerSettings.mk false (TempRange.new 280 300) witGradient)
     [] witFrame rfl⟩

/-- Claim C7: the capture step calls the controller's compute exactly once
with the frame's captured range, unconditionally in both auto and manual
mode: the resulting controller state is the state after one compute call
for every settings value; in the history model of the controller this
means the state always advances by exactly the captured range. -/
theorem capture_controller_advances_unconditionally {σ : Type}
    (compute : σ → TempRange → TempRange × σ)
    (settings : ThermalCapturerSettings) (st : σ) (d : ThermalData)
    (hist : List TempRange) :
    (captureStep compute settings st d).2 =
      (compute st d.capturedRange).2 ∧
    (captureStep AutoDisplayRangeController.compute settings hist d).2 =
      hist ++ [d.capturedRange] :=
  ⟨rfl, rfl⟩

/-- Claim C4: in every capture iteration the emitted result's histogram is
built with exactly 100 buckets over the join of the captured range and the
display range actually used (the result's image_range), and that histogram
range contains every pixel temperature of the frame. -/
theorem capture_histogram_range_and_buckets {σ : Type}
    (compute : σ → TempRange → TempRange × σ)
    (settings : ThermalCapturerSettings) (st : σ) (d : ThermalData) :
    (captureStep compute settings st d).1.histogram.num_buckets = 100 ∧
    (captureStep compute settings st d).1.histogram.range =
      d.capturedRange.join (captureStep compute settings st d).1.image_range ∧
    ∀ t ∈ d.pixels,
      ((captureStep compute settings st d).1.histogram.range).contains t := by
  refine ⟨rfl, rfl, ?_⟩
  intro t ht
  show (d.capturedRange.join _).min ≤ t ∧ t ≤ (d.capturedRange.join _).max
  constructor
  · exact le_trans (min_le_left _ _) (minTemp_le_pixel d t ht)
  · exact le_trans (pixel_le_maxTemp d t ht) (le_max_left _ _)

/-- Initial manual-mode settings with display range 0..1, for the burst
counterexamples. -/
def burstS0 : ThermalCapturerSettings :=
  ⟨false, TempRange.new 0 1, witGradient⟩

/-- First enqueued settings of the burst, display range 2..3. -/
def burstS1 : ThermalCapturerSettings :=
  ⟨false, TempRange.new 2 3, witGradient⟩

/-- Second enqueued settings of the burst, display range 4..5. -/
def burstS2 : ThermalCapturerSettings :=
  ⟨false, TempRange.new 4 5, witGradient⟩

/-- Counterexample to claim C2 as stated: with two SetSettings commands
(burstS1 then burstS2) enqueued before the worker next drains, the second
emitted result is produced with the intermediate settings burstS1 — its
image_range is burstS1's manual range, not burstS2's — so an intermediate
settings value IS used to produce a result: the single one-item drain per
iteration applies the burst one command per iteration instead of
collapsing it to the latest. -/
theorem capture_burst_intermediate_settings_used :
    ((runLoop AutoDisplayRangeController.compute
        [some witFrame, some witFrame, some witFrame] burstS0 []
        [ThermalCapturerCmd.SetSettings burstS1,
         ThermalCapturerCmd.SetSettings burstS2]).map
      (fun r => r.image_range)) =
      [TempRange.new 0 1, TempRange.new 2 3, TempRange.new 4 5] ∧
    burstS1.manual_range ≠ burstS2.manual_range := by
  constructor
  · rfl
  · decide

/-- The settings value left in effect after a burst of SetSettings
commands is drained: the last of the burst, or the current settings when
the burst is empty. -/
def lastSettings (s : ThermalCapturerSettings) :
    List ThermalCapturerSettings → ThermalCapturerSettings
  | [] => s
  | s1 :: qs => lastSettings s1 qs

/-- Claim C2 amended: the worker drains at most one command per iteration,
so a burst of k SetSettings commands is consumed one per iteration in FIFO
order — each may take effect for one iteration's result — and after k
iterations the burst is fully drained with the most recent settings value
the one that remains in effect (last write wins eventually, not by the
next drain). Formally: running with a queued burst equals some k emitted
results followed by the loop continuing under the last settings of the
burst with an empty queue. -/
theorem capture_burst_drained_one_per_iteration {σ : Type}
    (compute : σ → TempRange → TempRange × σ)
    (qs : List ThermalCapturerSettings) (s : ThermalCapturerSettings)
    (st : σ) (frames : List (Option ThermalData))
    (hall : ∀ f ∈ frames, f.isSome) (hlen : qs.length ≤ frames.length) :
    ∃ pre st2,
      pre.length = qs.length ∧
      runLoop compute frames s st (qs.map ThermalCapturerCmd.SetSettings) =
        pre ++ runLoop compute (frames.drop qs.length) (lastSettings s qs) st2 [] := by
  induction qs generalizing s st frames with
  | nil => exact ⟨[], st, rfl, by simp [lastSettings]⟩
  | cons s1 qs ih =>
    cases frames with
    | nil => simp at hlen
    | cons f rest =>
      have hf : f.isSome := hall f (List.mem_cons_self f rest)
      cases f with
      | none => simp at hf
      | some d =>
        obtain ⟨pre, st2, hpre, heq⟩ :=
          ih s1 (captureStep compute s st d).2 rest
            (fun g hg => hall g (List.mem_cons_of_mem _ hg))
            (Nat.le_of_succ_le_succ hlen)
        refine ⟨(captureStep compute s st d).1 :: pre, st2, by simp [hpre], ?_⟩
        simp only [runLoop, List.map_cons]
        rw [heq]
        rfl

/-- Witness for the amended C2 at a concrete burst of two settings. -/
theorem capture_burst_drained_one_per_iteration_witness :
    (∀ f ∈ [some witFrame, some witFrame, some witFrame], Option.isSome f) ∧
    [burstS1, burstS2].length ≤
      [some witFrame, some witFrame, some witFrame].length ∧
    ∃ pre st2,
      pre.length = [burstS1, burstS2].length ∧
      runLoop AutoDisplayRangeController.compute
          [some witFrame, some witFrame, some witFrame] burstS0 []
          ([burstS1, burstS2].map ThermalCapturerCmd.SetSettings) =
        pre ++ runLoop AutoDisplayRangeController.compute
          ([some witFrame, some witFrame, some witFrame].drop
            [burstS1, burstS2].length)
          (lastSettings burstS0 [burstS1, burstS2]) st2 [] :=
  ⟨by decide, by decide,
   capture_burst_drained_one_per_iteration AutoDisplayRangeController.compute
     [burstS1, burstS2] burstS0 []
     [some witFrame, some witFrame, some witFrame]
     (by decide) (by decide)⟩

/-- Counterexample to claim C3 as stated: with the command queue holding a
SetSettings command ahead of the Stop at the moment Stop is enqueued, the
worker emits two further results (one per drained command), not at most
one — the one-item drain reaches the Stop only after consuming each
command queued ahead of it. -/
theorem capture_stop_behind_pending_command_two_results :
    (runLoop AutoDisplayRangeController.compute
        [some witFrame, some witFrame, some witFrame] burstS0 []
        [ThermalCapturerCmd.SetSettings burstS1,
         ThermalCapturerCmd.Stop]).length = 2 := by
  rfl

/-- Claim C3 amended: after Stop is enqueued with k commands ahead of it
in the queue, the worker produces at most k + 1 further results before it
exits the loop; in particular at most one further result (the in-flight
iteration) when Stop is at the head of the queue, for every frame stream
and every tail of the queue behind the Stop. -/
theorem capture_stop_results_bounded_by_queue_position {σ : Type}
    (compute : σ → TempRange → TempRange × σ)
    (frames : List (Option ThermalData)) (s : ThermalCapturerSettings)
    (st : σ) (qs : List ThermalCapturerSettings)
    (q2 : List ThermalCapturerCmd) :
    (runLoop compute frames s st
        (qs.map ThermalCapturerCmd.SetSettings ++
          ThermalCapturerCmd.Stop :: q2)).length ≤ qs.length + 1 := by
  induction qs generalizing frames s st with
  | nil =>
    cases frames with
    | nil => simp [runLoop]
    | cons f rest =>
      cases f with
      | none => simp [runLoop]
      | some d => simp [runLoop]
  | cons s1 qs ih =>
    cases frames with
    | nil => simp [runLoop]
    | cons f rest =>
      cases f with
      | none => simp [runLoop]
      | some d =>
        simp only [runLoop, List.map_cons, List.cons_append, List.length_cons]
        exact Nat.succ_le_succ (ih rest s1 (captureStep compute s st d).2)

/-- Claim C8: if the adapter errors on iteration N (after fs successful
frames), the worker emits exactly one result per successful earlier
iteration and nothing for iteration N, and it terminates with no retry:
the run is identical whatever the adapter would have produced after the
error, for every command queue made of settings updates. -/
theorem capture_error_aborts_loop {σ : Type}
    (compute : σ → TempRange → TempRange × σ) (fs : List ThermalData)
    (rest : List (Option ThermalData)) (s : ThermalCapturerSettings)
    (st : σ) (qs : List ThermalCapturerSettings) :
    (runLoop compute (fs.map some ++ none :: rest) s st
        (qs.map ThermalCapturerCmd.SetSettings)).length = fs.length ∧
    runLoop compute (fs.map some ++ none :: rest) s st
        (qs.map ThermalCapturerCmd.SetSettings) =
      runLoop compute (fs.map some ++ [none]) s st
        (qs.map ThermalCapturerCmd.SetSettings) := by
  induction fs generalizing s st qs with
  | nil =>
    constructor
    · rfl
    · rfl
  | cons d fs ih =>
    cases qs with
    | nil =>
      obtain ⟨ih1, ih2⟩ := ih s (captureStep compute s st d).2 []
      constructor
      · simpa [runLoop] using ih1
      · simp only [List.map_cons, List.cons_append, runLoop, List.map_nil,
          List.append_eq]
        rw [List.map_nil] at ih2
        rw [ih2]
    | cons s1 qs2 =>
      obtain ⟨ih1, ih2⟩ := ih s1 (captureStep compute s st d).2 qs2
      constructor
      · simpa [runLoop] using ih1
      · simp only [List.map_cons, List.cons_append, runLoop, List.append_eq]
        rw [ih2]

/-- Claim C9: when the handle still holds its context (the camera), start
succeeds, hands the context to the newly spawned worker and leaves the
handle empty — it emits no result on the caller's thread — and calling
start a second time on the now-empty handle panics at the unwrap of the
taken-out context. -/
theorem capture_start_twice_panics (h : ThermalCapturerHandle) (c : ℕ)
    (hc : h.ctx = some c) :
    ∃ h2, ThermalCapturer.start h = Except.ok (h2, c) ∧ h2.ctx = none ∧
      ThermalCapturer.start h2 = Except.error RustPanic.unwrapFailed := by
  refine ⟨⟨none⟩, ?_, rfl, rfl⟩
  simp [ThermalCapturer.start, hc]

/-- Witness for C9 at a concrete handle. -/
theorem capture_start_twice_panics_witness :
    (ThermalCapturerHandle.mk (some 7)).ctx = some 7 ∧
    ∃ h2, ThermalCapturer.start ⟨some 7⟩ = Except.ok (h2, 7) ∧
      h2.ctx = none ∧
      ThermalCapturer.start h2 = Except.error RustPanic.unwrapFailed :=
  ⟨rfl, capture_start_twice_panics ⟨some 7⟩ 7 rfl⟩

/-- Claim C10: once the worker has exited and its command receiver is
dropped, both set_settings and the Drop impl panic at the unwrapped
channel send, for every queue content and settings value; while the worker
is alive both sends succeed, so the interface is panic-free exactly while
the worker is alive. -/
theorem capture_send_after_worker_exit_panics
    (q : List ThermalCapturerCmd) (s : ThermalCapturerSettings) :
    ThermalCapturer.set_settings false q s =
      Except.error RustPanic.unwrapFailed ∧
    ThermalCapturer.dropCapturer false q =
      Except.error RustPanic.unwrapFailed ∧
    (ThermalCapturer.set_settings true q s).isOk = true ∧
    (ThermalCapturer.dropCapturer true q).isOk = true := by
  exact ⟨rfl, rfl, rfl, rfl⟩
